import Mathlib

/-!
# Verification of the furnace-fan / HRV accessory control logic

A shallow embedding of `examples/Lightbulb/main/App.cpp`: the persisted
accessory state, the effective-state resolver, the timer base class
(`Timer`), the two timer policies (`AutoOffTimer`, `DutyCycleTimer`), the
output-update routine and the protocol write handlers, together with the
load routine for the persisted record.

Modelling conventions:
* `uint8_t` fields are `Nat`; clock ticks (`HAPPlatformTimer` milliseconds,
  `uint64_t` in the source) are `Nat` — every tick quantity that arises here
  is far below `2^64`, so machine wrap-around never occurs and is proved
  absent where a claim mentions it.
* The monotonic clock readings (`HAPPlatformClockGetCurrent`) and the wall
  clock readings (`localtime`: `tm_min`, `tm_sec`) are passed to each
  operation as explicit arguments.
* The single `float` computation in `DutyCycleTimer::start_next` is embedded
  with exact IEEE-754 binary32 semantics: binary32 values are dyadic
  rationals represented exactly as `num * 2^exp` (`Dyadic`), each C
  operation rounds its exact result to 24 significant bits, to nearest with
  ties to even (the magnitudes arising here stay inside the binary32 normal
  range, so overflow and subnormals cannot occur), and the final
  `(uint64_t)` cast truncates toward zero.
* Fatal-error paths (`HAPFatalError` on timer-registration or key-value-store
  failure) abort the process and are outside the state space modelled here.
-/

/-- `kHAPCharacteristicValue_TargetFanState_Manual` (HAP Target Fan State). -/
def TargetFanState_Manual : Nat := 0

/-- `kHAPCharacteristicValue_TargetFanState_Auto` (HAP Target Fan State). -/
def TargetFanState_Auto : Nat := 1

/-- `STATE_VERSION` in App.cpp. -/
def STATE_VERSION : Nat := 1

/-- `sizeof accessoryConfiguration.state`: eight single-byte fields. -/
def STATE_NUM_BYTES : Nat := 8

/-- The persisted record `accessoryConfiguration.state` of App.cpp. -/
structure PersistedState where
  version : Nat
  fanActiveManual : Bool
  fanActiveAuto : Bool
  fanTargetState : Nat
  fanTimeoutMinutes : Nat
  fanDutyCycle : Nat
  hrvActive : Bool
  hrvTargetState : Nat
deriving Repr, DecidableEq

/-- `Timer::TICKS_PER_MIN` (HAPPlatformTimer uses milliseconds). -/
def TICKS_PER_MIN : Nat := 1000 * 60

/-- The mutable fields of the `Timer` base class (the platform registration
handle is not modelled; `running` tracks whether a registration is live). -/
structure TimerState where
  start_ticks : Nat
  stop_ticks : Nat
  timeout_ticks : Nat
  running : Bool
deriving Repr, DecidableEq

/-- `Timer::start_once`: records the current clock reading as the start
tick and arms the platform timer at `start_ticks + timeout_ticks`. -/
def Timer.start_once (_t : TimerState) (timeout now : Nat) : TimerState :=
  { start_ticks := now
    stop_ticks := now + timeout
    timeout_ticks := timeout
    running := true }

/-- A timer that has never been armed (all-zero object, `running = false`). -/
def TimerState.idle : TimerState :=
  { start_ticks := 0, stop_ticks := 0, timeout_ticks := 0, running := false }

/-- The whole program state the control logic touches: the persisted record,
the two function-local `static bool` caches of `UpdateOutputsAndNotify`, the
driven GPIO levels (logical, before the adapter's polarity inversion),
counters of raised change events, a counter of `SaveAccessoryState` calls,
and the state of the two timer policy objects.  `dutyMinutesStart` and
`dutyFanActive` are the `minutes_start` and `fanActive` members of
`DutyCycleTimer`. -/
structure Sys where
  st : PersistedState
  fanCache : Bool
  hrvCache : Bool
  fanOut : Bool
  hrvOut : Bool
  fanNotifies : Nat
  hrvNotifies : Nat
  modeNotifies : Nat
  saves : Nat
  autoOff : TimerState
  dutyTimer : TimerState
  dutyMinutesStart : Int
  dutyFanActive : Bool
deriving Repr, DecidableEq

/-! ## The effective-state resolver (§4.4; App.cpp lines 379–389) -/

/-- `DutyCycleEnabledEffective()`. -/
def DutyCycleEnabledEffective (s : PersistedState) : Bool :=
  s.fanActiveAuto && (s.fanTargetState == TargetFanState_Auto)

/-- `FanActiveEffective()`. -/
def FanActiveEffective (s : PersistedState) : Bool :=
  s.fanActiveManual || DutyCycleEnabledEffective s

/-- `HrvActiveEffective()`. -/
def HrvActiveEffective (s : PersistedState) : Bool :=
  s.hrvActive
    || (DutyCycleEnabledEffective s && (s.hrvTargetState == TargetFanState_Auto))

/-! ## Output update and notification (App.cpp lines 391–418) -/

/-- `SaveAccessoryState`: persists the record (modelled as a call counter;
the store itself is an external collaborator). -/
def SaveAccessoryState (s : Sys) : Sys :=
  { s with saves := s.saves + 1 }

/-- `UpdateOutputsAndNotify`: recompute both effective values, drive both
GPIO outputs, and raise a change event for a channel exactly when the new
effective value differs from that channel's `static` cache. -/
def UpdateOutputsAndNotify (s : Sys) : Sys :=
  let fanActiveNew := FanActiveEffective s.st
  let hrvActiveNew := HrvActiveEffective s.st
  let s1 : Sys := { s with fanOut := fanActiveNew, hrvOut := hrvActiveNew }
  let s2 : Sys :=
    if fanActiveNew != s1.fanCache then
      { s1 with fanCache := fanActiveNew, fanNotifies := s1.fanNotifies + 1 }
    else s1
  if hrvActiveNew != s2.hrvCache then
    { s2 with hrvCache := hrvActiveNew, hrvNotifies := s2.hrvNotifies + 1 }
  else s2

/-! ## Auto-off timer policy (App.cpp lines 179–200) -/

/-- Body of `AutoOffTimer::callback`: clear the manually-commanded demand
bits and run the output update. -/
def AutoOffTimer.fire (s : Sys) : Sys :=
  UpdateOutputsAndNotify
    { s with st := { s.st with fanActiveManual := false, hrvActive := false } }

/-- `Timer::static_callback` dispatched to `AutoOffTimer::callback`: the
platform fires the registration, `running` is cleared, then the virtual
callback runs. -/
def AutoOffTimer.expire (s : Sys) : Sys :=
  AutoOffTimer.fire { s with autoOff := { s.autoOff with running := false } }

/-- `AutoOffTimer::start`: compute the timeout from `fanTimeoutMinutes` and
(re)arm via `start_once`. -/
def AutoOffTimer.start (s : Sys) (now : Nat) : Sys :=
  { s with
    autoOff := Timer.start_once s.autoOff (s.st.fanTimeoutMinutes * TICKS_PER_MIN) now }

/-- `AutoOffTimer::update_timeout`, inlining `Timer::update_timeout` with the
new timeout `fanTimeoutMinutes * TICKS_PER_MIN`: no-op when idle; otherwise
stop, recompute `stop_ticks = start_ticks + timeout`, and either fire the
callback at once (deadline closer than 1000 ticks from now) or re-arm for
the remaining duration via `start_once`. -/
def AutoOffTimer.update_timeout (s : Sys) (now : Nat) : Sys :=
  let t := s.st.fanTimeoutMinutes * TICKS_PER_MIN
  if s.autoOff.running then
    let tm : TimerState :=
      { s.autoOff with
        running := false
        timeout_ticks := t
        stop_ticks := s.autoOff.start_ticks + t }
    if tm.stop_ticks < now + 1000 then
      AutoOffTimer.fire { s with autoOff := tm }
    else
      { s with autoOff := Timer.start_once tm (tm.stop_ticks - now) now }
  else s

/-! ## Duty-cycle timer policy (App.cpp lines 203–275) -/

/-- On-phase arm length in `DutyCycleTimer::start_next` /
`duty_cycle_changed_callback`: duty cycle in percent of an hour, converted
to ticks (`fanDutyCycle * TICKS_PER_MIN * 60 / 100`, `uint64_t` integer
arithmetic). -/
def onPhaseTicks (duty : Nat) : Nat :=
  duty * TICKS_PER_MIN * 60 / 100

/-- A dyadic rational `num * 2^exp`.  Every IEEE-754 binary32 value in the
normal range is such a number with `|num| < 2^24`, so binary32 arithmetic
is modelled exactly. -/
structure Dyadic where
  num : Int
  exp : Int
deriving Repr, DecidableEq

/-- Scale the positive fraction `a / b` by powers of two (doubling `a` or
`b`, both exact) until the quotient lies in `[2^23, 2^24)`; returns the
scaled pair and the power `j` with `a / b = (a' / b') * 2^(-j)`. -/
def scaleLoop : Nat → Nat → Nat → Int → Nat × Nat × Int
  | 0, a, b, j => (a, b, j)
  | fuel + 1, a, b, j =>
    if a < 2 ^ 23 * b then scaleLoop fuel (a * 2) b (j + 1)
    else if 2 ^ 24 * b ≤ a then scaleLoop fuel a (b * 2) (j - 1)
    else (a, b, j)

/-- Round `a / b` (with `b > 0`) to the nearest integer, ties to even. -/
def rneDiv (a b : Nat) : Nat :=
  let q := a / b
  let r := a % b
  if 2 * r < b then q
  else if b < 2 * r then q + 1
  else if q % 2 = 0 then q else q + 1

/-- Round the positive fraction `a / b` to the nearest binary32 value
(round to nearest, ties to even): scale into `[2^23, 2^24)`, round the
24-bit significand, and record the binary exponent. -/
def roundPosDiv (a b : Nat) : Dyadic :=
  let s := scaleLoop 300 a b 0
  { num := (rneDiv s.1 s.2.1 : Nat), exp := -s.2.2 }

/-- Round an exact dyadic value to the nearest binary32 value (IEEE-754
round to nearest, ties to even; rounding is symmetric in the sign). -/
def round32 (d : Dyadic) : Dyadic :=
  if d.num = 0 then { num := 0, exp := 0 }
  else if 0 < d.num then
    let r := roundPosDiv d.num.toNat 1
    { num := r.num, exp := r.exp + d.exp }
  else
    let r := roundPosDiv (-d.num).toNat 1
    { num := -r.num, exp := r.exp + d.exp }

/-- Exact sum of two dyadic values (the rounding of an IEEE operation is
applied separately, by `round32`, to this exact result). -/
def Dyadic.add (a b : Dyadic) : Dyadic :=
  if a.exp ≤ b.exp then
    { num := a.num + b.num * ((2 ^ (b.exp - a.exp).toNat : Nat) : Int), exp := a.exp }
  else
    { num := a.num * ((2 ^ (a.exp - b.exp).toNat : Nat) : Int) + b.num, exp := b.exp }

/-- Exact negation (exact in IEEE arithmetic as well). -/
def Dyadic.neg (a : Dyadic) : Dyadic := { a with num := -a.num }

/-- The C `(uint64_t)` cast of a binary32 value: truncation toward zero
(every value cast here is non-negative). -/
def Dyadic.truncToNat (a : Dyadic) : Nat :=
  (if 0 ≤ a.exp then a.num * ((2 ^ a.exp.toNat : Nat) : Int)
   else a.num / ((2 ^ (-a.exp).toNat : Nat) : Int)).toNat

/-- Off-phase arm length in `DutyCycleTimer::start_next`, modelling the
`float` (binary32) arithmetic of the source exactly:
`minutes_start - (tm_min + tm_sec/60.0f)`, wrapped by `+= 60` when
non-positive, times `TICKS_PER_MIN`, truncated to `uint64_t`.  Each C
operation (`tm_sec/60.0f`, the addition of `tm_min`, the subtraction from
`minutes_start`, the `+= 60`, and the multiplication by `TICKS_PER_MIN`)
rounds its exact result to the nearest binary32 value; integer operands
(`tm_min`, `tm_sec`, `minutes_start`, `TICKS_PER_MIN = 60000`) convert to
binary32 exactly at these magnitudes, the subtraction from the constant
`minutes_start` only negates, and the `timeout <= 0` comparison is exact. -/
def offPhaseTicks (minutes_start : Int) (wallMin wallSec : Nat) : Nat :=
  let secPart : Dyadic :=
    if wallSec = 0 then { num := 0, exp := 0 } else roundPosDiv wallSec 60
  let sum : Dyadic := round32 (Dyadic.add { num := (wallMin : Int), exp := 0 } secPart)
  let timeout : Dyadic := round32 (Dyadic.add { num := minutes_start, exp := 0 } sum.neg)
  let timeout : Dyadic :=
    if timeout.num ≤ 0 then round32 (Dyadic.add timeout { num := 60, exp := 0 })
    else timeout
  (round32 { timeout with num := timeout.num * ((TICKS_PER_MIN : Nat) : Int) }).truncToNat

/-- `DutyCycleTimer::start_next`: arm for the on-phase length when the
phase flag is set, else for the wall-clock-aligned off-phase length. -/
def DutyCycleTimer.start_next (s : Sys) (now wallMin wallSec : Nat) : Sys :=
  let timeout :=
    if s.dutyFanActive then onPhaseTicks s.st.fanDutyCycle
    else offPhaseTicks s.dutyMinutesStart wallMin wallSec
  { s with dutyTimer := Timer.start_once s.dutyTimer timeout now }

/-- Body of `DutyCycleTimer::callback`: toggle the phase (the on-phase entry
is suppressed while `fanDutyCycle = 0`), mirror the phase into
`fanActiveAuto`, run the output update, then immediately arm the next
phase. -/
def DutyCycleTimer.fire (s : Sys) (now wallMin wallSec : Nat) : Sys :=
  let s :=
    if s.dutyFanActive then
      { s with dutyFanActive := false, st := { s.st with fanActiveAuto := false } }
    else if 0 < s.st.fanDutyCycle then
      { s with dutyFanActive := true, st := { s.st with fanActiveAuto := true } }
    else s
  let s := UpdateOutputsAndNotify s
  DutyCycleTimer.start_next s now wallMin wallSec

/-- `Timer::static_callback` dispatched to `DutyCycleTimer::callback`. -/
def DutyCycleTimer.expire (s : Sys) (now wallMin wallSec : Nat) : Sys :=
  DutyCycleTimer.fire { s with dutyTimer := { s.dutyTimer with running := false } }
    now wallMin wallSec

/-- `DutyCycleTimer::time_changed_callback`: nothing during the on-phase;
during the off-phase stop and recompute the deadline from the corrected
wall clock. -/
def DutyCycleTimer.time_changed (s : Sys) (now wallMin wallSec : Nat) : Sys :=
  if s.dutyFanActive then s
  else
    DutyCycleTimer.start_next
      { s with dutyTimer := { s.dutyTimer with running := false } } now wallMin wallSec

/-- `DutyCycleTimer::duty_cycle_changed_callback`, inlining
`Timer::update_timeout` with the recomputed on-phase length: during the
on-phase re-arm proportionally (firing at once when the new deadline has
effectively passed); during the off-phase do nothing. -/
def DutyCycleTimer.duty_changed (s : Sys) (now wallMin wallSec : Nat) : Sys :=
  if s.dutyFanActive then
    let t := onPhaseTicks s.st.fanDutyCycle
    if s.dutyTimer.running then
      let tm : TimerState :=
        { s.dutyTimer with
          running := false
          timeout_ticks := t
          stop_ticks := s.dutyTimer.start_ticks + t }
      if tm.stop_ticks < now + 1000 then
        DutyCycleTimer.fire { s with dutyTimer := tm } now wallMin wallSec
      else
        { s with dutyTimer := Timer.start_once tm (tm.stop_ticks - now) now }
    else s
  else s

/-! ## Loading the persisted record (App.cpp lines 287–322) -/

/-- What `HAPPlatformKeyValueStoreGet` reported: whether the key was found,
how many bytes were read, and the decoded record bytes. -/
structure KvsLoadResult where
  found : Bool
  numBytes : Nat
  record : PersistedState
deriving Repr, DecidableEq

/-- The compiled-in defaults `LoadAccessoryState` substitutes: the record is
zeroed, then `version`, `fanTargetState`, `fanDutyCycle` and
`fanTimeoutMinutes` are set. -/
def defaultState : PersistedState :=
  { version := STATE_VERSION
    fanActiveManual := false
    fanActiveAuto := false
    fanTargetState := TargetFanState_Manual
    fanTimeoutMinutes := 60
    fanDutyCycle := 10
    hrvActive := false
    hrvTargetState := 0 }

/-- `LoadAccessoryState`: reset to the compiled-in defaults when the record
is missing, of unexpected size, or of a different schema version; in every
case clear the three transient demand bits afterwards. -/
def LoadAccessoryState (r : KvsLoadResult) : PersistedState :=
  let st :=
    if !r.found || r.numBytes != STATE_NUM_BYTES || r.record.version != STATE_VERSION
    then defaultState
    else r.record
  { st with fanActiveAuto := false, fanActiveManual := false, hrvActive := false }

/-- The system state right after `AppCreate` (zeroed configuration, state
loaded, caches are zero-initialised `static bool`s, outputs driven off,
neither timer armed, `minutes_start = 0`, duty phase flag off). -/
def initSys (r : KvsLoadResult) : Sys :=
  { st := LoadAccessoryState r
    fanCache := false
    hrvCache := false
    fanOut := false
    hrvOut := false
    fanNotifies := 0
    hrvNotifies := 0
    modeNotifies := 0
    saves := 0
    autoOff := TimerState.idle
    dutyTimer := TimerState.idle
    dutyMinutesStart := 0
    dutyFanActive := false }

/-! ## Protocol write handlers (App.cpp lines 435–632) -/

/-- `HandleFurnaceFanActiveOnWrite`: on `true`, latch `fanActiveManual`
(remembering whether that changed anything) and always restart the auto-off
countdown; on `false`, only when the effective fan state was on, clear
manual demand and force `fanActiveAuto` and `hrvActive` off.  When a field
changed, save and run the output update. -/
def HandleFurnaceFanActiveOnWrite (s : Sys) (value : Bool) (now : Nat) : Sys :=
  if value then
    let changed := !s.st.fanActiveManual
    let s :=
      if changed then { s with st := { s.st with fanActiveManual := true } } else s
    let s := AutoOffTimer.start s now
    if changed then UpdateOutputsAndNotify (SaveAccessoryState s) else s
  else
    if FanActiveEffective s.st then
      UpdateOutputsAndNotify (SaveAccessoryState
        { s with st := { s.st with
                         fanActiveManual := false
                         fanActiveAuto := false
                         hrvActive := false } })
    else s

/-- `HandleFurnaceFanTargetFanStateOnWrite`: on an actual change store the
new mode, save, run the output update, and raise an event for the mode
characteristic itself. -/
def HandleFurnaceFanTargetFanStateOnWrite (s : Sys) (value : Nat) : Sys :=
  if s.st.fanTargetState != value then
    let s := UpdateOutputsAndNotify (SaveAccessoryState
      { s with st := { s.st with fanTargetState := value } })
    { s with modeNotifies := s.modeNotifies + 1 }
  else s

/-- `HandleFurnaceFanTimeoutOnWrite`: on an actual change store the new
timeout, save, propagate it to the auto-off timer, and raise an event for
the timeout characteristic itself. -/
def HandleFurnaceFanTimeoutOnWrite (s : Sys) (value now : Nat) : Sys :=
  if s.st.fanTimeoutMinutes != value then
    let s := SaveAccessoryState { s with st := { s.st with fanTimeoutMinutes := value } }
    let s := AutoOffTimer.update_timeout s now
    { s with modeNotifies := s.modeNotifies + 1 }
  else s

/-- `HandleFurnaceFanDutyCycleOnWrite`: on an actual change store the new
duty cycle, save, propagate it to the duty-cycle timer, and raise an event
for the duty-cycle characteristic itself. -/
def HandleFurnaceFanDutyCycleOnWrite (s : Sys) (value now wallMin wallSec : Nat) : Sys :=
  if s.st.fanDutyCycle != value then
    let s := SaveAccessoryState { s with st := { s.st with fanDutyCycle := value } }
    let s := DutyCycleTimer.duty_changed s now wallMin wallSec
    { s with modeNotifies := s.modeNotifies + 1 }
  else s

/-- `HandleHrvActiveOnWrite`: only when the written value differs from the
effective HRV state: store it; on `true` additionally latch manual fan
demand and restart the auto-off countdown; on `false`, when the HRV would
still be effectively on via the duty cycle, clear `fanActiveAuto`.  Then
save and run the output update. -/
def HandleHrvActiveOnWrite (s : Sys) (value : Bool) (now : Nat) : Sys :=
  if HrvActiveEffective s.st != value then
    let s := { s with st := { s.st with hrvActive := value } }
    let s :=
      if value then
        AutoOffTimer.start { s with st := { s.st with fanActiveManual := true } } now
      else
        if HrvActiveEffective s.st then
          { s with st := { s.st with fanActiveAuto := false } }
        else s
    UpdateOutputsAndNotify (SaveAccessoryState s)
  else s

/-- `HandleHrvTargetFanStateOnWrite`: on an actual change store the new
mode, save, run the output update, and raise an event for the mode
characteristic itself. -/
def HandleHrvTargetFanStateOnWrite (s : Sys) (value : Nat) : Sys :=
  if s.st.hrvTargetState != value then
    let s := UpdateOutputsAndNotify (SaveAccessoryState
      { s with st := { s.st with hrvTargetState := value } })
    { s with modeNotifies := s.modeNotifies + 1 }
  else s

/-! ## Event steps: protocol writes and timer expirations, serialized -/

/-- One externally triggered step: a protocol write (carrying the clock
readings the handler makes) or a platform-timer expiration. -/
inductive Ev where
  | fanActiveWrite (value : Bool) (now : Nat)
  | fanTargetWrite (value : Nat)
  | fanTimeoutWrite (value now : Nat)
  | dutyCycleWrite (value now wallMin wallSec : Nat)
  | hrvActiveWrite (value : Bool) (now : Nat)
  | hrvTargetWrite (value : Nat)
  | autoOffExpiry
  | dutyExpiry (now wallMin wallSec : Nat)
deriving Repr, DecidableEq

/-- Dispatch one event to the handler implementing it. -/
def step (s : Sys) : Ev → Sys
  | .fanActiveWrite value now => HandleFurnaceFanActiveOnWrite s value now
  | .fanTargetWrite value => HandleFurnaceFanTargetFanStateOnWrite s value
  | .fanTimeoutWrite value now => HandleFurnaceFanTimeoutOnWrite s value now
  | .dutyCycleWrite value now wallMin wallSec =>
      HandleFurnaceFanDutyCycleOnWrite s value now wallMin wallSec
  | .hrvActiveWrite value now => HandleHrvActiveOnWrite s value now
  | .hrvTargetWrite value => HandleHrvTargetFanStateOnWrite s value
  | .autoOffExpiry => AutoOffTimer.expire s
  | .dutyExpiry now wallMin wallSec => DutyCycleTimer.expire s now wallMin wallSec

/-- The state reached from start-up after a serialized event sequence. -/
def run (r : KvsLoadResult) (evs : List Ev) : Sys :=
  evs.foldl step (initSys r)

/-! ## Projection lemmas for the output-update routine -/

theorem UpdateOutputsAndNotify_st (s : Sys) : (UpdateOutputsAndNotify s).st = s.st := by
  unfold UpdateOutputsAndNotify
  dsimp only
  split <;> split <;> rfl

theorem UpdateOutputsAndNotify_autoOff (s : Sys) :
    (UpdateOutputsAndNotify s).autoOff = s.autoOff := by
  unfold UpdateOutputsAndNotify
  dsimp only
  split <;> split <;> rfl

theorem UpdateOutputsAndNotify_dutyTimer (s : Sys) :
    (UpdateOutputsAndNotify s).dutyTimer = s.dutyTimer := by
  unfold UpdateOutputsAndNotify
  dsimp only
  split <;> split <;> rfl

theorem UpdateOutputsAndNotify_dutyMinutesStart (s : Sys) :
    (UpdateOutputsAndNotify s).dutyMinutesStart = s.dutyMinutesStart := by
  unfold UpdateOutputsAndNotify
  dsimp only
  split <;> split <;> rfl

theorem UpdateOutputsAndNotify_dutyFanActive (s : Sys) :
    (UpdateOutputsAndNotify s).dutyFanActive = s.dutyFanActive := by
  unfold UpdateOutputsAndNotify
  dsimp only
  split <;> split <;> rfl

theorem UpdateOutputsAndNotify_saves (s : Sys) :
    (UpdateOutputsAndNotify s).saves = s.saves := by
  unfold UpdateOutputsAndNotify
  dsimp only
  split <;> split <;> rfl

theorem UpdateOutputsAndNotify_modeNotifies (s : Sys) :
    (UpdateOutputsAndNotify s).modeNotifies = s.modeNotifies := by
  unfold UpdateOutputsAndNotify
  dsimp only
  split <;> split <;> rfl

theorem UpdateOutputsAndNotify_fanOut (s : Sys) :
    (UpdateOutputsAndNotify s).fanOut = FanActiveEffective s.st := by
  unfold UpdateOutputsAndNotify
  dsimp only
  split <;> split <;> rfl

theorem UpdateOutputsAndNotify_hrvOut (s : Sys) :
    (UpdateOutputsAndNotify s).hrvOut = HrvActiveEffective s.st := by
  unfold UpdateOutputsAndNotify
  dsimp only
  split <;> split <;> rfl

theorem UpdateOutputsAndNotify_fanCache (s : Sys) :
    (UpdateOutputsAndNotify s).fanCache = FanActiveEffective s.st := by
  unfold UpdateOutputsAndNotify
  dsimp only
  split <;> split <;> simp_all

theorem UpdateOutputsAndNotify_hrvCache (s : Sys) :
    (UpdateOutputsAndNotify s).hrvCache = HrvActiveEffective s.st := by
  unfold UpdateOutputsAndNotify
  dsimp only
  split <;> split <;> simp_all

theorem UpdateOutputsAndNotify_fanNotifies (s : Sys) :
    (UpdateOutputsAndNotify s).fanNotifies
      = s.fanNotifies + (if FanActiveEffective s.st = s.fanCache then 0 else 1) := by
  unfold UpdateOutputsAndNotify
  dsimp only
  split <;> split <;> simp_all

theorem UpdateOutputsAndNotify_hrvNotifies (s : Sys) :
    (UpdateOutputsAndNotify s).hrvNotifies
      = s.hrvNotifies + (if HrvActiveEffective s.st = s.hrvCache then 0 else 1) := by
  unfold UpdateOutputsAndNotify
  dsimp only
  split <;> split <;> simp_all

/-- C1: for every `PersistedState` — hence every combination of the five
inputs `(fanActiveManual, fanActiveAuto, fanTargetState, hrvActive,
hrvTargetState)` — the effective-state resolver satisfies exactly the
boolean formulas of §4.4: `duty_cycle_effective = fanActiveAuto AND
fanTargetState == Auto`, `fan_effective = fanActiveManual OR
duty_cycle_effective`, and `hrv_effective = hrvActive OR
(duty_cycle_effective AND hrvTargetState == Auto)`. -/
theorem c1_resolver_matches_spec_formulas (s : PersistedState) :
    (DutyCycleEnabledEffective s = true
      ↔ (s.fanActiveAuto = true ∧ s.fanTargetState = TargetFanState_Auto))
  ∧ (FanActiveEffective s = true
      ↔ (s.fanActiveManual = true
          ∨ (s.fanActiveAuto = true ∧ s.fanTargetState = TargetFanState_Auto)))
  ∧ (HrvActiveEffective s = true
      ↔ (s.hrvActive = true
          ∨ ((s.fanActiveAuto = true ∧ s.fanTargetState = TargetFanState_Auto)
              ∧ s.hrvTargetState = TargetFanState_Auto))) := by
  simp [DutyCycleEnabledEffective, FanActiveEffective, HrvActiveEffective,
    and_assoc]

/-- C3: whenever the auto-off timer expires, the callback clears
`fanActiveManual` and `hrvActive`, leaves `fanActiveAuto` and every other
persisted field unchanged, leaves the timer idle, and runs the
resolver/output-update routine (outputs and notification caches end up at
the recomputed effective values). -/
theorem c3_autooff_expiry_frame (s : Sys) :
    ((AutoOffTimer.expire s).st.fanActiveManual = false
        ∧ (AutoOffTimer.expire s).st.hrvActive = false)
  ∧ (AutoOffTimer.expire s).st.fanActiveAuto = s.st.fanActiveAuto
  ∧ (AutoOffTimer.expire s).st.version = s.st.version
  ∧ (AutoOffTimer.expire s).st.fanTargetState = s.st.fanTargetState
  ∧ (AutoOffTimer.expire s).st.fanTimeoutMinutes = s.st.fanTimeoutMinutes
  ∧ (AutoOffTimer.expire s).st.fanDutyCycle = s.st.fanDutyCycle
  ∧ (AutoOffTimer.expire s).st.hrvTargetState = s.st.hrvTargetState
  ∧ (AutoOffTimer.expire s).autoOff.running = false
  ∧ ((AutoOffTimer.expire s).fanOut = FanActiveEffective (AutoOffTimer.expire s).st
        ∧ (AutoOffTimer.expire s).hrvOut = HrvActiveEffective (AutoOffTimer.expire s).st
        ∧ (AutoOffTimer.expire s).fanCache = FanActiveEffective (AutoOffTimer.expire s).st
        ∧ (AutoOffTimer.expire s).hrvCache = HrvActiveEffective (AutoOffTimer.expire s).st) := by
  simp [AutoOffTimer.expire, AutoOffTimer.fire, UpdateOutputsAndNotify_st,
    UpdateOutputsAndNotify_autoOff, UpdateOutputsAndNotify_fanOut,
    UpdateOutputsAndNotify_hrvOut, UpdateOutputsAndNotify_fanCache,
    UpdateOutputsAndNotify_hrvCache]

/-- C7: writing `false` to the manual-fan-active characteristic clears
`fanActiveManual`, `fanActiveAuto` and `hrvActive` together exactly when
the prior effective fan state was on (then saving and updating outputs,
all other fields untouched); when the prior effective state was off the
write is a complete no-op — no state change, no save, no output update. -/
theorem c7_fan_off_write (s : Sys) (now : Nat) :
    (FanActiveEffective s.st = true →
        ((HandleFurnaceFanActiveOnWrite s false now).st.fanActiveManual = false
       ∧ (HandleFurnaceFanActiveOnWrite s false now).st.fanActiveAuto = false
       ∧ (HandleFurnaceFanActiveOnWrite s false now).st.hrvActive = false)
      ∧ ((HandleFurnaceFanActiveOnWrite s false now).st.version = s.st.version
       ∧ (HandleFurnaceFanActiveOnWrite s false now).st.fanTargetState = s.st.fanTargetState
       ∧ (HandleFurnaceFanActiveOnWrite s false now).st.fanTimeoutMinutes = s.st.fanTimeoutMinutes
       ∧ (HandleFurnaceFanActiveOnWrite s false now).st.fanDutyCycle = s.st.fanDutyCycle
       ∧ (HandleFurnaceFanActiveOnWrite s false now).st.hrvTargetState = s.st.hrvTargetState)
      ∧ (HandleFurnaceFanActiveOnWrite s false now).saves = s.saves + 1)
  ∧ (FanActiveEffective s.st = false →
      HandleFurnaceFanActiveOnWrite s false now = s) := by
  constructor
  · intro h
    simp [HandleFurnaceFanActiveOnWrite, h, SaveAccessoryState,
      UpdateOutputsAndNotify_st, UpdateOutputsAndNotify_saves]
  · intro h
    simp [HandleFurnaceFanActiveOnWrite, h]

/-- The load result for a first boot: nothing in the key-value store. -/
def kvsMissing : KvsLoadResult :=
  { found := false, numBytes := 0, record := defaultState }

/-- A freshly started system in which only manual fan demand is asserted. -/
def manualOnSys : Sys :=
  { initSys kvsMissing with st := { defaultState with fanActiveManual := true } }

/-- C7 witness: at a state where only manual demand is on (effective state
on), the off-write clears the manual demand bit and saves once. -/
theorem c7_fan_off_write_witness :
    FanActiveEffective manualOnSys.st = true
  ∧ (HandleFurnaceFanActiveOnWrite manualOnSys false 7).st.fanActiveManual = false
  ∧ (HandleFurnaceFanActiveOnWrite manualOnSys false 7).saves = manualOnSys.saves + 1
  ∧ FanActiveEffective (initSys kvsMissing).st = false
  ∧ HandleFurnaceFanActiveOnWrite (initSys kvsMissing) false 7 = initSys kvsMissing :=
  ⟨rfl, ((c7_fan_off_write manualOnSys 7).1 rfl).1.1,
    ((c7_fan_off_write manualOnSys 7).1 rfl).2.2, rfl,
    (c7_fan_off_write (initSys kvsMissing) 7).2 rfl⟩

/-- C8: on load, a missing record, a size mismatch, or a version mismatch
resets the state to the compiled-in defaults (`version = STATE_VERSION`,
`fanTargetState = Manual`, `fanDutyCycle = 10`, `fanTimeoutMinutes = 60`,
everything else zero); a well-formed record is kept; and in every case the
transient demand bits `fanActiveManual`, `fanActiveAuto` and `hrvActive`
are false after the load completes. -/
theorem c8_load_defaults_and_demand_reset (r : KvsLoadResult) :
    ((r.found = false ∨ r.numBytes ≠ STATE_NUM_BYTES ∨ r.record.version ≠ STATE_VERSION) →
        LoadAccessoryState r = defaultState)
  ∧ ((r.found = true ∧ r.numBytes = STATE_NUM_BYTES ∧ r.record.version = STATE_VERSION) →
        LoadAccessoryState r
          = { r.record with
              fanActiveManual := false
              fanActiveAuto := false
              hrvActive := false })
  ∧ ((LoadAccessoryState r).fanActiveManual = false
      ∧ (LoadAccessoryState r).fanActiveAuto = false
      ∧ (LoadAccessoryState r).hrvActive = false) := by
  refine ⟨?_, ?_, ?_⟩
  · intro h
    rcases h with h | h | h <;>
      simp [LoadAccessoryState, h, defaultState]
  · rintro ⟨h1, h2, h3⟩
    simp [LoadAccessoryState, h1, h2, h3]
  · simp [LoadAccessoryState]

/-- A stored record of the expected size and version, with a manual demand
bit set and a non-default duty cycle. -/
def kvsGood : KvsLoadResult :=
  { found := true
    numBytes := 8
    record := { defaultState with fanDutyCycle := 42, fanActiveManual := true } }

/-- C8 witness: a missing record yields the defaults; a well-formed record
at version 1 is kept with the demand bits cleared. -/
theorem c8_load_witness :
    (kvsMissing.found = false ∨ kvsMissing.numBytes ≠ STATE_NUM_BYTES
        ∨ kvsMissing.record.version ≠ STATE_VERSION)
  ∧ LoadAccessoryState kvsMissing = defaultState
  ∧ (kvsGood.found = true ∧ kvsGood.numBytes = STATE_NUM_BYTES
        ∧ kvsGood.record.version = STATE_VERSION)
  ∧ LoadAccessoryState kvsGood
      = { kvsGood.record with
          fanActiveManual := false
          fanActiveAuto := false
          hrvActive := false } :=
  ⟨Or.inl rfl, (c8_load_defaults_and_demand_reset kvsMissing).1 (Or.inl rfl),
    ⟨rfl, rfl, rfl⟩, (c8_load_defaults_and_demand_reset kvsGood).2.1 ⟨rfl, rfl, rfl⟩⟩

/-- After clearing `hrvActive`, the recomputed effective HRV state is just
the duty-cycle contribution. -/
theorem hrv_eff_after_clear (st : PersistedState) :
    HrvActiveEffective { st with hrvActive := false }
      = (DutyCycleEnabledEffective st && (st.hrvTargetState == TargetFanState_Auto)) := by
  simp [HrvActiveEffective, DutyCycleEnabledEffective]

/-- C10: the HRV-active write handler's side effects beyond `hrvActive`
itself.  Writing `true` while the effective HRV state is off also latches
`fanActiveManual` and (re)starts the auto-off countdown from `now` with the
configured timeout; writing `false` while the effective HRV state is on
clears `hrvActive` and additionally clears `fanActiveAuto` exactly when the
HRV would otherwise stay effectively on through the duty cycle. -/
theorem c10_hrv_write_side_effects (s : Sys) (now : Nat) :
    (HrvActiveEffective s.st = false →
        ((HandleHrvActiveOnWrite s true now).st.hrvActive = true
       ∧ (HandleHrvActiveOnWrite s true now).st.fanActiveManual = true
       ∧ (HandleHrvActiveOnWrite s true now).autoOff
           = { start_ticks := now
               stop_ticks := now + s.st.fanTimeoutMinutes * TICKS_PER_MIN
               timeout_ticks := s.st.fanTimeoutMinutes * TICKS_PER_MIN
               running := true }))
  ∧ (HrvActiveEffective s.st = true →
        ((HandleHrvActiveOnWrite s false now).st.hrvActive = false
       ∧ (HandleHrvActiveOnWrite s false now).st.fanActiveAuto
           = (if (DutyCycleEnabledEffective s.st
                    && (s.st.hrvTargetState == TargetFanState_Auto)) = true
              then false
              else s.st.fanActiveAuto))) := by
  constructor
  · intro h
    simp [HandleHrvActiveOnWrite, h, AutoOffTimer.start, Timer.start_once,
      SaveAccessoryState, UpdateOutputsAndNotify_st, UpdateOutputsAndNotify_autoOff]
  · intro h
    by_cases hdc : (DutyCycleEnabledEffective s.st
        && (s.st.hrvTargetState == TargetFanState_Auto)) = true
    · simp [HandleHrvActiveOnWrite, h, hdc, hrv_eff_after_clear, SaveAccessoryState,
        UpdateOutputsAndNotify_st]
    · rw [Bool.not_eq_true] at hdc
      simp [HandleHrvActiveOnWrite, h, hdc, hrv_eff_after_clear, SaveAccessoryState,
        UpdateOutputsAndNotify_st]

/-- A freshly started system in which only the HRV demand bit is set. -/
def hrvOnSys : Sys :=
  { initSys kvsMissing with st := { defaultState with hrvActive := true } }

/-- C10 witness: from the all-off start state, writing HRV on latches
manual fan demand too; from an HRV-on state, writing HRV off clears it. -/
theorem c10_hrv_write_side_effects_witness :
    HrvActiveEffective (initSys kvsMissing).st = false
  ∧ (HandleHrvActiveOnWrite (initSys kvsMissing) true 3).st.fanActiveManual = true
  ∧ HrvActiveEffective hrvOnSys.st = true
  ∧ (HandleHrvActiveOnWrite hrvOnSys false 3).st.hrvActive = false :=
  ⟨rfl, ((c10_hrv_write_side_effects (initSys kvsMissing) 3).1 rfl).2.1, rfl,
    ((c10_hrv_write_side_effects hrvOnSys 3).2 rfl).1⟩

/-- C9: for a duty cycle in `0..100`, entering the on-phase arms the timer
for exactly `fanDutyCycle * 60000 * 60 / 100` ticks, the integer arithmetic
is exact (`= fanDutyCycle * 36000`, the `uint64_t` product stays far below
`2^64`), and `fanDutyCycle = 100` yields exactly one hour of ticks. -/
theorem c9_on_phase_arm_length (s : Sys) (now wallMin wallSec : Nat)
    (hon : s.dutyFanActive = true) (hduty : s.st.fanDutyCycle ≤ 100) :
    (DutyCycleTimer.start_next s now wallMin wallSec).dutyTimer.timeout_ticks
        = s.st.fanDutyCycle * 60000 * 60 / 100
  ∧ s.st.fanDutyCycle * 60000 * 60 / 100 = s.st.fanDutyCycle * 36000
  ∧ s.st.fanDutyCycle * 60000 * 60 < 2 ^ 64
  ∧ onPhaseTicks 100 = 3600000 := by
  have hexp : (2 : Nat) ^ 64 = 18446744073709551616 := by norm_num
  have hmul : s.st.fanDutyCycle * 60000 * 60 = s.st.fanDutyCycle * 36000 * 100 := by ring
  refine ⟨?_, ?_, ?_, by decide⟩
  · simp [DutyCycleTimer.start_next, hon, Timer.start_once, onPhaseTicks, TICKS_PER_MIN]
  · rw [hmul, Nat.mul_div_cancel _ (by norm_num : 0 < 100)]
  · have h1 : s.st.fanDutyCycle * 36000 ≤ 100 * 36000 :=
      Nat.mul_le_mul_right 36000 hduty
    omega

/-- A system sitting in the duty-cycle on-phase at 100 % duty. -/
def fullDutySys : Sys :=
  { initSys kvsMissing with
    dutyFanActive := true
    st := { defaultState with fanDutyCycle := 100 } }

/-- C9 witness: at 100 % duty the on-phase arm length is exactly one hour
of ticks. -/
theorem c9_on_phase_arm_length_witness :
    fullDutySys.dutyFanActive = true
  ∧ fullDutySys.st.fanDutyCycle ≤ 100
  ∧ (DutyCycleTimer.start_next fullDutySys 0 0 0).dutyTimer.timeout_ticks
      = fullDutySys.st.fanDutyCycle * 60000 * 60 / 100
  ∧ (DutyCycleTimer.start_next fullDutySys 0 0 0).dutyTimer.timeout_ticks = 3600000 :=
  ⟨rfl, by decide,
    (c9_on_phase_arm_length fullDutySys 0 0 0 rfl (by decide)).1,
    by rw [(c9_on_phase_arm_length fullDutySys 0 0 0 rfl (by decide)).1]; decide⟩

/-- C2 (amended): a call to the auto-off timer's `update_timeout` is a no-op
when the timer is not counting; otherwise the new deadline is the *start
tick of the most recent arming* plus the new timeout
(`fanTimeoutMinutes * TICKS_PER_MIN`).  If that deadline is in the past or
within a 1-second margin of `now`, the off-callback fires immediately (the
demand bits are cleared, outputs updated, and no timer is left armed);
otherwise the timer is re-armed to fire at the recomputed deadline — and
that re-arm resets the recorded start tick to the re-arm time `now`, so a
subsequent `update_timeout` recomputes from the last re-arm tick, not from
the original `start()` tick. -/
theorem c2_update_timeout_behavior (s : Sys) (now : Nat) :
    (s.autoOff.running = false → AutoOffTimer.update_timeout s now = s)
  ∧ (s.autoOff.running = true →
      (s.autoOff.start_ticks + s.st.fanTimeoutMinutes * TICKS_PER_MIN < now + 1000 →
          ((AutoOffTimer.update_timeout s now).autoOff.running = false
         ∧ (AutoOffTimer.update_timeout s now).st.fanActiveManual = false
         ∧ (AutoOffTimer.update_timeout s now).st.hrvActive = false
         ∧ (AutoOffTimer.update_timeout s now).fanOut
             = FanActiveEffective (AutoOffTimer.update_timeout s now).st
         ∧ (AutoOffTimer.update_timeout s now).hrvOut
             = HrvActiveEffective (AutoOffTimer.update_timeout s now).st))
    ∧ (now + 1000 ≤ s.autoOff.start_ticks + s.st.fanTimeoutMinutes * TICKS_PER_MIN →
          ((AutoOffTimer.update_timeout s now).autoOff
              = { start_ticks := now
                  stop_ticks :=
                    s.autoOff.start_ticks + s.st.fanTimeoutMinutes * TICKS_PER_MIN
                  timeout_ticks :=
                    s.autoOff.start_ticks + s.st.fanTimeoutMinutes * TICKS_PER_MIN - now
                  running := true }
         ∧ (AutoOffTimer.update_timeout s now).st = s.st))) := by
  refine ⟨?_, fun h => ⟨?_, ?_⟩⟩
  · intro h
    simp [AutoOffTimer.update_timeout, h]
  · intro hlt
    simp [AutoOffTimer.update_timeout, h, hlt, AutoOffTimer.fire,
      UpdateOutputsAndNotify_st, UpdateOutputsAndNotify_autoOff,
      UpdateOutputsAndNotify_fanOut, UpdateOutputsAndNotify_hrvOut]
  · intro hge
    have hnlt : ¬ (s.autoOff.start_ticks + s.st.fanTimeoutMinutes * TICKS_PER_MIN
        < now + 1000) := by omega
    have hle : now ≤ s.autoOff.start_ticks + s.st.fanTimeoutMinutes * TICKS_PER_MIN := by
      omega
    simp [AutoOffTimer.update_timeout, h, hnlt, Timer.start_once,
      Nat.add_sub_cancel' hle]

/-- A system whose auto-off countdown was started by a manual-on write at
tick 0 with the default 60-minute timeout. -/
def armedSys : Sys := run kvsMissing [Ev.fanActiveWrite true 0]

/-- C2 witness: on the armed system, an update whose recomputed deadline
has passed fires immediately; an update at tick 1000 re-arms, keeping the
persisted state untouched. -/
theorem c2_update_timeout_behavior_witness :
    armedSys.autoOff.running = true
  ∧ armedSys.autoOff.start_ticks + armedSys.st.fanTimeoutMinutes * TICKS_PER_MIN
      < 3700000 + 1000
  ∧ (AutoOffTimer.update_timeout armedSys 3700000).autoOff.running = false
  ∧ 1000 + 1000 ≤ armedSys.autoOff.start_ticks
      + armedSys.st.fanTimeoutMinutes * TICKS_PER_MIN
  ∧ (AutoOffTimer.update_timeout armedSys 1000).st = armedSys.st :=
  ⟨by decide, by decide,
    (((c2_update_timeout_behavior armedSys 3700000).2 (by decide)).1 (by decide)).1,
    by decide,
    (((c2_update_timeout_behavior armedSys 1000).2 (by decide)).2 (by decide)).2⟩

/-- C2 counterexample: countdown started at tick 0 (60-minute timeout),
then `fanTimeoutMinutes` written to 20 at tick 600000 (re-arms for deadline
0 + 20 min = 1200000) and to 40 at tick 700000.  The claim's "each
recomputing from the original start tick" predicts a deadline of
0 + 40 min = 2400000, but the code re-arms at 3000000 = 600000 (the tick of
the previous re-arm, which overwrote `start_ticks`) + 40 min. -/
theorem c2_counterexample :
    ((run kvsMissing [Ev.fanActiveWrite true 0]).autoOff.start_ticks = 0
  ∧ (run kvsMissing [Ev.fanActiveWrite true 0]).autoOff.running = true)
  ∧ (run kvsMissing [Ev.fanActiveWrite true 0, Ev.fanTimeoutWrite 20 600000,
        Ev.fanTimeoutWrite 40 700000]).autoOff.running = true
  ∧ (run kvsMissing [Ev.fanActiveWrite true 0, Ev.fanTimeoutWrite 20 600000,
        Ev.fanTimeoutWrite 40 700000]).autoOff.stop_ticks = 3000000
  ∧ (run kvsMissing [Ev.fanActiveWrite true 0, Ev.fanTimeoutWrite 20 600000,
        Ev.fanTimeoutWrite 40 700000]).autoOff.stop_ticks
      ≠ 0 + 40 * TICKS_PER_MIN := by
  decide

/-! ## Wall-clock alignment of the off-phase -/

/-- The off-phase bound at one wall-clock reading: the binary32 arm length
is the exact number of milliseconds remaining until the next top-of-hour
boundary, or one tick less. -/
def offBoundsP (m s : Nat) : Prop :=
  3600000 - (60000 * m + 1000 * s) - 1 ≤ offPhaseTicks 0 m s
  ∧ offPhaseTicks 0 m s ≤ 3600000 - (60000 * m + 1000 * s)

instance (m s : Nat) : Decidable (offBoundsP m s) := by
  unfold offBoundsP; infer_instance

set_option maxRecDepth 10000 in
set_option maxHeartbeats 1000000 in
/-- The off-phase bound, checked by evaluating the binary32 model at every
whole-second reading of minutes 0–9. -/
theorem offBounds_chunk0 : ∀ d, d < 10 → ∀ s, s < 60 → offBoundsP (10 * 0 + d) s := by
  decide

set_option maxRecDepth 10000 in
set_option maxHeartbeats 1000000 in
/-- The off-phase bound, checked by evaluating the binary32 model at every
whole-second reading of minutes 10–19. -/
theorem offBounds_chunk1 : ∀ d, d < 10 → ∀ s, s < 60 → offBoundsP (10 * 1 + d) s := by
  decide

set_option maxRecDepth 10000 in
set_option maxHeartbeats 1000000 in
/-- The off-phase bound, checked by evaluating the binary32 model at every
whole-second reading of minutes 20–29. -/
theorem offBounds_chunk2 : ∀ d, d < 10 → ∀ s, s < 60 → offBoundsP (10 * 2 + d) s := by
  decide

set_option maxRecDepth 10000 in
set_option maxHeartbeats 1000000 in
/-- The off-phase bound, checked by evaluating the binary32 model at every
whole-second reading of minutes 30–39. -/
theorem offBounds_chunk3 : ∀ d, d < 10 → ∀ s, s < 60 → offBoundsP (10 * 3 + d) s := by
  decide

set_option maxRecDepth 10000 in
set_option maxHeartbeats 1000000 in
/-- The off-phase bound, checked by evaluating the binary32 model at every
whole-second reading of minutes 40–49. -/
theorem offBounds_chunk4 : ∀ d, d < 10 → ∀ s, s < 60 → offBoundsP (10 * 4 + d) s := by
  decide

set_option maxRecDepth 10000 in
set_option maxHeartbeats 1000000 in
/-- The off-phase bound, checked by evaluating the binary32 model at every
whole-second reading of minutes 50–59. -/
theorem offBounds_chunk5 : ∀ d, d < 10 → ∀ s, s < 60 → offBoundsP (10 * 5 + d) s := by
  decide

/-- With the anchor at 0 (the value `minutes_start` holds throughout the
program), the binary32 off-phase arm length is the exact number of
milliseconds remaining until the next top-of-hour boundary, or one tick
less: the four float roundings keep the result within a fraction of a tick
of the exact value, and the truncating cast can then land one tick short.
Assembled from the per-decade evaluations of the binary32 model at all
3600 whole-second wall-clock readings (at 601 of them the result is one
tick short, e.g. minute 16 second 5). -/
theorem offPhaseTicks_bounds :
    ∀ wallMin, wallMin < 60 → ∀ wallSec, wallSec < 60 →
      3600000 - (60000 * wallMin + 1000 * wallSec) - 1 ≤ offPhaseTicks 0 wallMin wallSec
      ∧ offPhaseTicks 0 wallMin wallSec ≤ 3600000 - (60000 * wallMin + 1000 * wallSec) := by
  intro m hm s hs
  suffices hc : offBoundsP m s by
    unfold offBoundsP at hc; exact hc
  rcases Nat.lt_or_ge m 10 with h1 | h1
  · have hc := offBounds_chunk0 m (by omega) s hs
    have heq : 10 * 0 + m = m := by omega
    rw [heq] at hc; exact hc
  rcases Nat.lt_or_ge m 20 with h2 | h2
  · have hc := offBounds_chunk1 (m - 10) (by omega) s hs
    have heq : 10 * 1 + (m - 10) = m := by omega
    rw [heq] at hc; exact hc
  rcases Nat.lt_or_ge m 30 with h3 | h3
  · have hc := offBounds_chunk2 (m - 20) (by omega) s hs
    have heq : 10 * 2 + (m - 20) = m := by omega
    rw [heq] at hc; exact hc
  rcases Nat.lt_or_ge m 40 with h4 | h4
  · have hc := offBounds_chunk3 (m - 30) (by omega) s hs
    have heq : 10 * 3 + (m - 30) = m := by omega
    rw [heq] at hc; exact hc
  rcases Nat.lt_or_ge m 50 with h5 | h5
  · have hc := offBounds_chunk4 (m - 40) (by omega) s hs
    have heq : 10 * 4 + (m - 40) = m := by omega
    rw [heq] at hc; exact hc
  · have hc := offBounds_chunk5 (m - 50) (by omega) s hs
    have heq : 10 * 5 + (m - 50) = m := by omega
    rw [heq] at hc; exact hc

/-! ## `minutes_start` is never assigned after construction -/

theorem autoOff_fire_dms (s : Sys) :
    (AutoOffTimer.fire s).dutyMinutesStart = s.dutyMinutesStart := by
  simp [AutoOffTimer.fire, UpdateOutputsAndNotify_dutyMinutesStart]

theorem autoOff_update_timeout_dms (s : Sys) (now : Nat) :
    (AutoOffTimer.update_timeout s now).dutyMinutesStart = s.dutyMinutesStart := by
  unfold AutoOffTimer.update_timeout
  dsimp only
  split
  · split
    · exact autoOff_fire_dms _
    · rfl
  · rfl

theorem duty_fire_dms (s : Sys) (now wallMin wallSec : Nat) :
    (DutyCycleTimer.fire s now wallMin wallSec).dutyMinutesStart = s.dutyMinutesStart := by
  unfold DutyCycleTimer.fire DutyCycleTimer.start_next
  dsimp only
  split
  · simp [UpdateOutputsAndNotify_dutyMinutesStart]
  · split
    · simp [UpdateOutputsAndNotify_dutyMinutesStart]
    · simp [UpdateOutputsAndNotify_dutyMinutesStart]

theorem duty_changed_dms_lemma (s : Sys) (now wallMin wallSec : Nat) :
    (DutyCycleTimer.duty_changed s now wallMin wallSec).dutyMinutesStart
      = s.dutyMinutesStart := by
  unfold DutyCycleTimer.duty_changed
  dsimp only
  split
  · split
    · split
      · exact duty_fire_dms _ _ _ _
      · rfl
    · rfl
  · rfl

theorem step_dms (s : Sys) (e : Ev) : (step s e).dutyMinutesStart = s.dutyMinutesStart := by
  cases e with
  | fanActiveWrite value now =>
      unfold step HandleFurnaceFanActiveOnWrite
      dsimp only
      repeat' split
      all_goals
        simp [AutoOffTimer.start, SaveAccessoryState,
          UpdateOutputsAndNotify_dutyMinutesStart]
  | fanTargetWrite value =>
      unfold step HandleFurnaceFanTargetFanStateOnWrite
      dsimp only
      split <;> simp [SaveAccessoryState, UpdateOutputsAndNotify_dutyMinutesStart]
  | fanTimeoutWrite value now =>
      unfold step HandleFurnaceFanTimeoutOnWrite
      dsimp only
      split
      · simp [autoOff_update_timeout_dms, SaveAccessoryState]
      · rfl
  | dutyCycleWrite value now wallMin wallSec =>
      unfold step HandleFurnaceFanDutyCycleOnWrite
      dsimp only
      split
      · simp [duty_changed_dms_lemma, SaveAccessoryState]
      · rfl
  | hrvActiveWrite value now =>
      unfold step HandleHrvActiveOnWrite
      dsimp only
      repeat' split
      all_goals
        simp [AutoOffTimer.start, SaveAccessoryState,
          UpdateOutputsAndNotify_dutyMinutesStart]
  | hrvTargetWrite value =>
      unfold step HandleHrvTargetFanStateOnWrite
      dsimp only
      split <;> simp [SaveAccessoryState, UpdateOutputsAndNotify_dutyMinutesStart]
  | autoOffExpiry =>
      unfold step AutoOffTimer.expire
      exact autoOff_fire_dms _
  | dutyExpiry now wallMin wallSec =>
      unfold step DutyCycleTimer.expire
      exact duty_fire_dms _ _ _ _

/-- `minutes_start` stays 0 (its constructed value) through every event. -/
theorem run_dms (r : KvsLoadResult) (evs : List Ev) :
    (run r evs).dutyMinutesStart = 0 := by
  have key : ∀ (l : List Ev) (s : Sys), s.dutyMinutesStart = 0 →
      (l.foldl step s).dutyMinutesStart = 0 := by
    intro l
    induction l with
    | nil => intro s h; exact h
    | cons e t ih =>
        intro s h
        exact ih (step s e) (by rw [step_dms, h])
  exact key evs (initSys r) rfl

/-- C4 (amended): whenever the duty-cycle timer enters the off-phase
(`start_next` with the phase flag off), at any reachable program state,
the armed duration is the minutes-and-seconds remaining until the next
top-of-hour boundary — `3600000 - (60000*min + 1000*sec)` ticks — computed
in single-precision float, which can fall exactly one tick short of that
value after the truncating cast; so the off-phase deadline
`now + duration` lands on the top of an hour to within one tick (1 ms) no
matter when `start_next` ran; and a `time_changed_callback` during the
off-phase produces exactly the same re-armed state (it cancels and
recomputes via the same path).  In particular with wall-clock minute 50
the off-phase ends in 10 minutes, not 60 (exactly, see the witness).
(The anchor `minutes_start` is 0 at every reachable state, so the computed
remainder `0 - (min + sec/60)` is always non-positive and the `+60` wrap
always applies.) -/
theorem c4_off_phase_hour_alignment (r : KvsLoadResult) (evs : List Ev)
    (now wallMin wallSec : Nat) (hm : wallMin < 60) (hs : wallSec < 60)
    (hoff : (run r evs).dutyFanActive = false) :
    (3600000 - (60000 * wallMin + 1000 * wallSec) - 1
        ≤ (DutyCycleTimer.start_next (run r evs) now wallMin wallSec).dutyTimer.timeout_ticks
      ∧ (DutyCycleTimer.start_next (run r evs) now wallMin wallSec).dutyTimer.timeout_ticks
        ≤ 3600000 - (60000 * wallMin + 1000 * wallSec))
  ∧ (DutyCycleTimer.start_next (run r evs) now wallMin wallSec).dutyTimer.stop_ticks
        = now
          + (DutyCycleTimer.start_next (run r evs) now wallMin wallSec).dutyTimer.timeout_ticks
  ∧ (DutyCycleTimer.start_next (run r evs) now wallMin wallSec).dutyTimer.running = true
  ∧ DutyCycleTimer.time_changed (run r evs) now wallMin wallSec
        = DutyCycleTimer.start_next (run r evs) now wallMin wallSec := by
  have h0 := run_dms r evs
  have htt : (DutyCycleTimer.start_next (run r evs) now wallMin wallSec).dutyTimer.timeout_ticks
      = offPhaseTicks 0 wallMin wallSec := by
    simp [DutyCycleTimer.start_next, hoff, h0, Timer.start_once]
  refine ⟨?_, ?_, ?_, ?_⟩
  · rw [htt]
    exact offPhaseTicks_bounds wallMin hm wallSec hs
  · simp [DutyCycleTimer.start_next, hoff, Timer.start_once]
  · simp [DutyCycleTimer.start_next, hoff, Timer.start_once]
  · simp [DutyCycleTimer.time_changed, DutyCycleTimer.start_next, hoff,
      Timer.start_once]

/-- C4 counterexample to the claim as stated: at wall-clock minute 16,
second 5 the exact remainder to the top of the hour is 2635000 ticks, but
the program's binary32 computation arms the off-phase for 2634999 ticks —
one tick short — so the armed duration does not equal the
minutes-and-seconds remaining, and the deadline misses the top of the hour
by one tick. -/
theorem c4_counterexample :
    (run kvsMissing []).dutyFanActive = false
  ∧ (DutyCycleTimer.start_next (run kvsMissing []) 0 16 5).dutyTimer.timeout_ticks
      = 2634999
  ∧ 3600000 - (60000 * 16 + 1000 * 5) = 2635000
  ∧ (DutyCycleTimer.start_next (run kvsMissing []) 0 16 5).dutyTimer.timeout_ticks
      ≠ 3600000 - (60000 * 16 + 1000 * 5)
  ∧ (DutyCycleTimer.start_next (run kvsMissing []) 0 16 5).dutyTimer.stop_ticks
      = 0 + 2634999 := by
  decide

/-- C4 witness: the §8 scenario — at wall-clock minute 50 the off-phase is
armed for exactly 10 minutes (600000 ticks), not 60 (the float computation
is exact there). -/
theorem c4_off_phase_hour_alignment_witness :
    (50 : Nat) < 60 ∧ (0 : Nat) < 60
  ∧ (run kvsMissing []).dutyFanActive = false
  ∧ (DutyCycleTimer.start_next (run kvsMissing []) 0 50 0).dutyTimer.timeout_ticks
      ≤ 3600000 - (60000 * 50 + 1000 * 0)
  ∧ (DutyCycleTimer.start_next (run kvsMissing []) 0 50 0).dutyTimer.timeout_ticks
      = 10 * TICKS_PER_MIN :=
  ⟨by decide, by decide, rfl,
    ((c4_off_phase_hour_alignment kvsMissing [] 0 50 0 (by decide) (by decide) rfl).1).2,
    by decide⟩

theorem DutyCycleTimer.start_next_running (s : Sys) (now wallMin wallSec : Nat) :
    (DutyCycleTimer.start_next s now wallMin wallSec).dutyTimer.running = true := rfl

theorem DutyCycleTimer.start_next_st (s : Sys) (now wallMin wallSec : Nat) :
    (DutyCycleTimer.start_next s now wallMin wallSec).st = s.st := rfl

theorem DutyCycleTimer.start_next_dfa (s : Sys) (now wallMin wallSec : Nat) :
    (DutyCycleTimer.start_next s now wallMin wallSec).dutyFanActive = s.dutyFanActive := rfl

/-- C5: at a duty-cycle timer expiry the timer is always re-armed
(`start_next` runs after every expiry, `running` ends true); while
`fanDutyCycle = 0` an expiry never turns `fanActiveAuto` on — from an
off-phase all-off state both the phase flag and `fanActiveAuto` stay false
— yet as soon as a boundary is reached with a non-zero duty cycle the
on-phase entry happens by itself (`dutyFanActive` and `fanActiveAuto`
become true), with no external trigger. -/
theorem c5_zero_duty_keeps_cycling (s : Sys) (now wallMin wallSec : Nat) :
    (DutyCycleTimer.expire s now wallMin wallSec).dutyTimer.running = true
  ∧ (s.st.fanDutyCycle = 0 →
        ((DutyCycleTimer.expire s now wallMin wallSec).st.fanActiveAuto = true →
            s.st.fanActiveAuto = true))
  ∧ (s.st.fanDutyCycle = 0 → s.dutyFanActive = false → s.st.fanActiveAuto = false →
        ((DutyCycleTimer.expire s now wallMin wallSec).dutyFanActive = false
       ∧ (DutyCycleTimer.expire s now wallMin wallSec).st.fanActiveAuto = false))
  ∧ (0 < s.st.fanDutyCycle → s.dutyFanActive = false →
        ((DutyCycleTimer.expire s now wallMin wallSec).dutyFanActive = true
       ∧ (DutyCycleTimer.expire s now wallMin wallSec).st.fanActiveAuto = true)) := by
  refine ⟨DutyCycleTimer.start_next_running _ _ _ _, ?_, ?_, ?_⟩
  · intro hd
    by_cases h : s.dutyFanActive = true <;>
      simp [DutyCycleTimer.expire, DutyCycleTimer.fire, h, hd,
        DutyCycleTimer.start_next_st, UpdateOutputsAndNotify_st]
  · intro hd hoff hauto
    simp [DutyCycleTimer.expire, DutyCycleTimer.fire, hoff, hd, hauto,
      DutyCycleTimer.start_next_st, DutyCycleTimer.start_next_dfa,
      UpdateOutputsAndNotify_st, UpdateOutputsAndNotify_dutyFanActive]
  · intro hd hoff
    simp [DutyCycleTimer.expire, DutyCycleTimer.fire, hoff, hd,
      DutyCycleTimer.start_next_st, DutyCycleTimer.start_next_dfa,
      UpdateOutputsAndNotify_st, UpdateOutputsAndNotify_dutyFanActive]

/-- A freshly started system whose configured duty cycle is 0 %. -/
def zeroDutySys : Sys :=
  { initSys kvsMissing with st := { defaultState with fanDutyCycle := 0 } }

/-- C5 witness: at 0 % duty an off-phase expiry keeps everything off but
re-arms; at the default 10 % duty the same expiry enters the on-phase by
itself. -/
theorem c5_zero_duty_keeps_cycling_witness :
    zeroDutySys.st.fanDutyCycle = 0
  ∧ zeroDutySys.dutyFanActive = false
  ∧ zeroDutySys.st.fanActiveAuto = false
  ∧ (DutyCycleTimer.expire zeroDutySys 0 30 0).dutyFanActive = false
  ∧ (DutyCycleTimer.expire zeroDutySys 0 30 0).dutyTimer.running = true
  ∧ 0 < (initSys kvsMissing).st.fanDutyCycle
  ∧ (initSys kvsMissing).dutyFanActive = false
  ∧ (DutyCycleTimer.expire (initSys kvsMissing) 0 30 0).st.fanActiveAuto = true :=
  ⟨rfl, rfl, rfl,
    ((c5_zero_duty_keeps_cycling zeroDutySys 0 30 0).2.2.1 rfl rfl rfl).1,
    (c5_zero_duty_keeps_cycling zeroDutySys 0 30 0).1,
    by decide, rfl,
    ((c5_zero_duty_keeps_cycling (initSys kvsMissing) 0 30 0).2.2.2 (by decide) rfl).2⟩

/-! ## Notification accounting -/

theorem DutyCycleTimer.start_next_fanCache (s : Sys) (now wallMin wallSec : Nat) :
    (DutyCycleTimer.start_next s now wallMin wallSec).fanCache = s.fanCache := rfl

theorem DutyCycleTimer.start_next_hrvCache (s : Sys) (now wallMin wallSec : Nat) :
    (DutyCycleTimer.start_next s now wallMin wallSec).hrvCache = s.hrvCache := rfl

theorem DutyCycleTimer.start_next_fanNotifies (s : Sys) (now wallMin wallSec : Nat) :
    (DutyCycleTimer.start_next s now wallMin wallSec).fanNotifies = s.fanNotifies := rfl

theorem DutyCycleTimer.start_next_hrvNotifies (s : Sys) (now wallMin wallSec : Nat) :
    (DutyCycleTimer.start_next s now wallMin wallSec).hrvNotifies = s.hrvNotifies := rfl

/-- Running the output update at the end of a step whose earlier actions
changed neither the caches nor the notification counters: the caches end at
the recomputed effective values and each counter grows by one exactly when
that channel's effective value differs from its value at the start of the
step. -/
theorem update_after (s0 s1 : Sys)
    (hc : s1.fanCache = s0.fanCache) (hh : s1.hrvCache = s0.hrvCache)
    (hfn : s1.fanNotifies = s0.fanNotifies) (hhn : s1.hrvNotifies = s0.hrvNotifies)
    (h1 : s0.fanCache = FanActiveEffective s0.st)
    (h2 : s0.hrvCache = HrvActiveEffective s0.st) :
    ((UpdateOutputsAndNotify s1).fanCache
        = FanActiveEffective (UpdateOutputsAndNotify s1).st
   ∧ (UpdateOutputsAndNotify s1).hrvCache
        = HrvActiveEffective (UpdateOutputsAndNotify s1).st)
  ∧ (UpdateOutputsAndNotify s1).fanNotifies
      = s0.fanNotifies
        + (if FanActiveEffective (UpdateOutputsAndNotify s1).st
              = FanActiveEffective s0.st then 0 else 1)
  ∧ (UpdateOutputsAndNotify s1).hrvNotifies
      = s0.hrvNotifies
        + (if HrvActiveEffective (UpdateOutputsAndNotify s1).st
              = HrvActiveEffective s0.st then 0 else 1) := by
  refine ⟨⟨?_, ?_⟩, ?_, ?_⟩
  · rw [UpdateOutputsAndNotify_fanCache, UpdateOutputsAndNotify_st]
  · rw [UpdateOutputsAndNotify_hrvCache, UpdateOutputsAndNotify_st]
  · rw [UpdateOutputsAndNotify_fanNotifies, UpdateOutputsAndNotify_st, hfn, hc, h1]
  · rw [UpdateOutputsAndNotify_hrvNotifies, UpdateOutputsAndNotify_st, hhn, hh, h2]

/-! ## Branch-reduction equations for the handlers -/

theorem update_timeout_idle (s : Sys) (now : Nat) (hr : s.autoOff.running = false) :
    AutoOffTimer.update_timeout s now = s := by
  unfold AutoOffTimer.update_timeout
  simp [hr]

theorem update_timeout_fire (s : Sys) (now : Nat) (hr : s.autoOff.running = true)
    (hlt : s.autoOff.start_ticks + s.st.fanTimeoutMinutes * TICKS_PER_MIN < now + 1000) :
    AutoOffTimer.update_timeout s now
      = AutoOffTimer.fire
          { s with autoOff :=
              { s.autoOff with
                running := false
                timeout_ticks := s.st.fanTimeoutMinutes * TICKS_PER_MIN
                stop_ticks :=
                  s.autoOff.start_ticks + s.st.fanTimeoutMinutes * TICKS_PER_MIN } } := by
  unfold AutoOffTimer.update_timeout
  simp [hr, hlt]

theorem update_timeout_rearm (s : Sys) (now : Nat) (hr : s.autoOff.running = true)
    (hge : now + 1000 ≤ s.autoOff.start_ticks + s.st.fanTimeoutMinutes * TICKS_PER_MIN) :
    AutoOffTimer.update_timeout s now
      = { s with autoOff :=
            (Timer.start_once s.autoOff
              (s.autoOff.start_ticks + s.st.fanTimeoutMinutes * TICKS_PER_MIN - now) now) } := by
  unfold AutoOffTimer.update_timeout
  simp [hr, Nat.not_lt.mpr hge]
  rfl

theorem duty_changed_off (s : Sys) (now wallMin wallSec : Nat)
    (hdfa : s.dutyFanActive = false) :
    DutyCycleTimer.duty_changed s now wallMin wallSec = s := by
  unfold DutyCycleTimer.duty_changed
  simp [hdfa]

theorem duty_changed_on_idle (s : Sys) (now wallMin wallSec : Nat)
    (hdfa : s.dutyFanActive = true) (hr : s.dutyTimer.running = false) :
    DutyCycleTimer.duty_changed s now wallMin wallSec = s := by
  unfold DutyCycleTimer.duty_changed
  simp [hdfa, hr]

theorem duty_changed_on_fire (s : Sys) (now wallMin wallSec : Nat)
    (hdfa : s.dutyFanActive = true) (hr : s.dutyTimer.running = true)
    (hlt : s.dutyTimer.start_ticks + onPhaseTicks s.st.fanDutyCycle < now + 1000) :
    DutyCycleTimer.duty_changed s now wallMin wallSec
      = DutyCycleTimer.fire
          { s with dutyTimer :=
              { s.dutyTimer with
                running := false
                timeout_ticks := onPhaseTicks s.st.fanDutyCycle
                stop_ticks :=
                  s.dutyTimer.start_ticks + onPhaseTicks s.st.fanDutyCycle } }
          now wallMin wallSec := by
  unfold DutyCycleTimer.duty_changed
  simp [hdfa, hr, hlt]

theorem duty_changed_on_rearm (s : Sys) (now wallMin wallSec : Nat)
    (hdfa : s.dutyFanActive = true) (hr : s.dutyTimer.running = true)
    (hge : now + 1000 ≤ s.dutyTimer.start_ticks + onPhaseTicks s.st.fanDutyCycle) :
    DutyCycleTimer.duty_changed s now wallMin wallSec
      = { s with dutyTimer :=
            (Timer.start_once s.dutyTimer
              (s.dutyTimer.start_ticks + onPhaseTicks s.st.fanDutyCycle - now) now) } := by
  unfold DutyCycleTimer.duty_changed
  simp [hdfa, hr, Nat.not_lt.mpr hge]
  rfl

theorem fire_on_phase (s : Sys) (now wallMin wallSec : Nat)
    (hdfa : s.dutyFanActive = true) :
    DutyCycleTimer.fire s now wallMin wallSec
      = DutyCycleTimer.start_next
          (UpdateOutputsAndNotify
            { s with dutyFanActive := false, st := { s.st with fanActiveAuto := false } })
          now wallMin wallSec := by
  unfold DutyCycleTimer.fire
  simp [hdfa]

theorem fire_off_phase_pos (s : Sys) (now wallMin wallSec : Nat)
    (hdfa : s.dutyFanActive = false) (hpos : 0 < s.st.fanDutyCycle) :
    DutyCycleTimer.fire s now wallMin wallSec
      = DutyCycleTimer.start_next
          (UpdateOutputsAndNotify
            { s with dutyFanActive := true, st := { s.st with fanActiveAuto := true } })
          now wallMin wallSec := by
  unfold DutyCycleTimer.fire
  simp [hdfa, hpos]

theorem fire_off_phase_zero (s : Sys) (now wallMin wallSec : Nat)
    (hdfa : s.dutyFanActive = false) (hz : s.st.fanDutyCycle = 0) :
    DutyCycleTimer.fire s now wallMin wallSec
      = DutyCycleTimer.start_next (UpdateOutputsAndNotify s) now wallMin wallSec := by
  unfold DutyCycleTimer.fire
  simp [hdfa, hz]

theorem fan_write_on_changed (s : Sys) (now : Nat)
    (hm : s.st.fanActiveManual = false) :
    HandleFurnaceFanActiveOnWrite s true now
      = UpdateOutputsAndNotify (SaveAccessoryState
          (AutoOffTimer.start
            { s with st := { s.st with fanActiveManual := true } } now)) := by
  unfold HandleFurnaceFanActiveOnWrite
  simp [hm]

theorem fan_write_on_redundant (s : Sys) (now : Nat)
    (hm : s.st.fanActiveManual = true) :
    HandleFurnaceFanActiveOnWrite s true now = AutoOffTimer.start s now := by
  unfold HandleFurnaceFanActiveOnWrite
  simp [hm]

theorem fan_write_off_effective (s : Sys) (now : Nat)
    (heff : FanActiveEffective s.st = true) :
    HandleFurnaceFanActiveOnWrite s false now
      = UpdateOutputsAndNotify (SaveAccessoryState
          { s with st := { s.st with
                           fanActiveManual := false
                           fanActiveAuto := false
                           hrvActive := false } }) := by
  unfold HandleFurnaceFanActiveOnWrite
  simp [heff]

theorem fan_write_off_noop (s : Sys) (now : Nat)
    (heff : FanActiveEffective s.st = false) :
    HandleFurnaceFanActiveOnWrite s false now = s := by
  unfold HandleFurnaceFanActiveOnWrite
  simp [heff]

theorem fan_target_write_changed (s : Sys) (value : Nat)
    (h : (s.st.fanTargetState != value) = true) :
    HandleFurnaceFanTargetFanStateOnWrite s value
      = { UpdateOutputsAndNotify (SaveAccessoryState
            { s with st := { s.st with fanTargetState := value } }) with
          modeNotifies :=
            (UpdateOutputsAndNotify (SaveAccessoryState
              { s with st := { s.st with fanTargetState := value } })).modeNotifies
              + 1 } := by
  unfold HandleFurnaceFanTargetFanStateOnWrite
  simp [h]

theorem fan_target_write_noop (s : Sys) (value : Nat)
    (h : (s.st.fanTargetState != value) = false) :
    HandleFurnaceFanTargetFanStateOnWrite s value = s := by
  unfold HandleFurnaceFanTargetFanStateOnWrite
  simp [h]

theorem fan_timeout_write_changed (s : Sys) (value now : Nat)
    (h : (s.st.fanTimeoutMinutes != value) = true) :
    HandleFurnaceFanTimeoutOnWrite s value now
      = { AutoOffTimer.update_timeout (SaveAccessoryState
            { s with st := { s.st with fanTimeoutMinutes := value } }) now with
          modeNotifies :=
            (AutoOffTimer.update_timeout (SaveAccessoryState
              { s with st := { s.st with fanTimeoutMinutes := value } }) now).modeNotifies
              + 1 } := by
  unfold HandleFurnaceFanTimeoutOnWrite
  simp [h]

theorem fan_timeout_write_noop (s : Sys) (value now : Nat)
    (h : (s.st.fanTimeoutMinutes != value) = false) :
    HandleFurnaceFanTimeoutOnWrite s value now = s := by
  unfold HandleFurnaceFanTimeoutOnWrite
  simp [h]

theorem duty_write_changed (s : Sys) (value now wallMin wallSec : Nat)
    (h : (s.st.fanDutyCycle != value) = true) :
    HandleFurnaceFanDutyCycleOnWrite s value now wallMin wallSec
      = { DutyCycleTimer.duty_changed (SaveAccessoryState
            { s with st := { s.st with fanDutyCycle := value } }) now wallMin wallSec with
          modeNotifies :=
            (DutyCycleTimer.duty_changed (SaveAccessoryState
              { s with st := { s.st with fanDutyCycle := value } })
                now wallMin wallSec).modeNotifies + 1 } := by
  unfold HandleFurnaceFanDutyCycleOnWrite
  simp [h]

theorem duty_write_noop (s : Sys) (value now wallMin wallSec : Nat)
    (h : (s.st.fanDutyCycle != value) = false) :
    HandleFurnaceFanDutyCycleOnWrite s value now wallMin wallSec = s := by
  unfold HandleFurnaceFanDutyCycleOnWrite
  simp [h]

theorem hrv_write_on_effective_off (s : Sys) (now : Nat)
    (h : HrvActiveEffective s.st = false) :
    HandleHrvActiveOnWrite s true now
      = UpdateOutputsAndNotify (SaveAccessoryState
          (AutoOffTimer.start
            { s with st := { s.st with hrvActive := true, fanActiveManual := true } }
            now)) := by
  unfold HandleHrvActiveOnWrite
  simp [h]

theorem hrv_write_on_noop (s : Sys) (now : Nat)
    (h : HrvActiveEffective s.st = true) :
    HandleHrvActiveOnWrite s true now = s := by
  unfold HandleHrvActiveOnWrite
  simp [h]

theorem hrv_write_off_still_on (s : Sys) (now : Nat)
    (h : HrvActiveEffective s.st = true)
    (hrem : HrvActiveEffective { s.st with hrvActive := false } = true) :
    HandleHrvActiveOnWrite s false now
      = UpdateOutputsAndNotify (SaveAccessoryState
          { s with st := { s.st with hrvActive := false, fanActiveAuto := false } }) := by
  unfold HandleHrvActiveOnWrite
  simp [h, hrem]

theorem hrv_write_off_plain (s : Sys) (now : Nat)
    (h : HrvActiveEffective s.st = true)
    (hrem : HrvActiveEffective { s.st with hrvActive := false } = false) :
    HandleHrvActiveOnWrite s false now
      = UpdateOutputsAndNotify (SaveAccessoryState
          { s with st := { s.st with hrvActive := false } }) := by
  unfold HandleHrvActiveOnWrite
  simp [h, hrem]

theorem hrv_write_off_noop (s : Sys) (now : Nat)
    (h : HrvActiveEffective s.st = false) :
    HandleHrvActiveOnWrite s false now = s := by
  unfold HandleHrvActiveOnWrite
  simp [h]

theorem hrv_target_write_changed (s : Sys) (value : Nat)
    (h : (s.st.hrvTargetState != value) = true) :
    HandleHrvTargetFanStateOnWrite s value
      = { UpdateOutputsAndNotify (SaveAccessoryState
            { s with st := { s.st with hrvTargetState := value } }) with
          modeNotifies :=
            (UpdateOutputsAndNotify (SaveAccessoryState
              { s with st := { s.st with hrvTargetState := value } })).modeNotifies
              + 1 } := by
  unfold HandleHrvTargetFanStateOnWrite
  simp [h]

theorem hrv_target_write_noop (s : Sys) (value : Nat)
    (h : (s.st.hrvTargetState != value) = false) :
    HandleHrvTargetFanStateOnWrite s value = s := by
  unfold HandleHrvTargetFanStateOnWrite
  simp [h]

/-- One serialized step preserves the cache invariant (each channel's
`static` cache equals the current effective value) and bumps each
channel's notification counter exactly when that channel's effective value
changed across the step. -/
theorem step_ok (s : Sys) (e : Ev)
    (h1 : s.fanCache = FanActiveEffective s.st)
    (h2 : s.hrvCache = HrvActiveEffective s.st) :
    ((step s e).fanCache = FanActiveEffective (step s e).st
   ∧ (step s e).hrvCache = HrvActiveEffective (step s e).st)
  ∧ (step s e).fanNotifies
      = s.fanNotifies
        + (if FanActiveEffective (step s e).st = FanActiveEffective s.st then 0 else 1)
  ∧ (step s e).hrvNotifies
      = s.hrvNotifies
        + (if HrvActiveEffective (step s e).st = HrvActiveEffective s.st then 0 else 1) := by
  cases e with
  | fanActiveWrite value now =>
      simp only [step]
      cases value with
      | true =>
          by_cases hm : s.st.fanActiveManual = true
          · simp only [fan_write_on_redundant s now hm]
            simp [h1, h2, AutoOffTimer.start]
          · rw [Bool.not_eq_true] at hm
            simp only [fan_write_on_changed s now hm]
            exact update_after s _ rfl rfl rfl rfl h1 h2
      | false =>
          by_cases heff : FanActiveEffective s.st = true
          · simp only [fan_write_off_effective s now heff]
            exact update_after s _ rfl rfl rfl rfl h1 h2
          · rw [Bool.not_eq_true] at heff
            simp only [fan_write_off_noop s now heff]
            simp [h1, h2]
  | fanTargetWrite value =>
      simp only [step]
      by_cases h : (s.st.fanTargetState != value) = true
      · simp only [fan_target_write_changed s value h]
        exact update_after s _ rfl rfl rfl rfl h1 h2
      · rw [Bool.not_eq_true] at h
        simp only [fan_target_write_noop s value h]
        simp [h1, h2]
  | fanTimeoutWrite value now =>
      simp only [step]
      by_cases h : (s.st.fanTimeoutMinutes != value) = true
      · simp only [fan_timeout_write_changed s value now h]
        by_cases hr : s.autoOff.running = true
        · by_cases hlt : s.autoOff.start_ticks + value * TICKS_PER_MIN < now + 1000
          · simp only [SaveAccessoryState, update_timeout_fire, hr, hlt]
            exact update_after s _ rfl rfl rfl rfl h1 h2
          · have hge : now + 1000 ≤ s.autoOff.start_ticks + value * TICKS_PER_MIN := by
              omega
            simp only [SaveAccessoryState, update_timeout_rearm, hr, hge]
            simp [h1, h2, SaveAccessoryState, Timer.start_once,
              FanActiveEffective, HrvActiveEffective, DutyCycleEnabledEffective]
        · rw [Bool.not_eq_true] at hr
          simp only [SaveAccessoryState, update_timeout_idle, hr]
          simp [h1, h2, SaveAccessoryState,
            FanActiveEffective, HrvActiveEffective, DutyCycleEnabledEffective]
      · rw [Bool.not_eq_true] at h
        simp only [fan_timeout_write_noop s value now h]
        simp [h1, h2]
  | dutyCycleWrite value now wallMin wallSec =>
      simp only [step]
      by_cases h : (s.st.fanDutyCycle != value) = true
      · simp only [duty_write_changed s value now wallMin wallSec h]
        by_cases hdfa : s.dutyFanActive = true
        · by_cases hr : s.dutyTimer.running = true
          · by_cases hlt : s.dutyTimer.start_ticks + onPhaseTicks value < now + 1000
            · simp only [SaveAccessoryState, duty_changed_on_fire, hdfa, hr, hlt, fire_on_phase]
              exact update_after s _ rfl rfl rfl rfl h1 h2
            · have hge : now + 1000 ≤ s.dutyTimer.start_ticks + onPhaseTicks value := by
                omega
              simp only [SaveAccessoryState, duty_changed_on_rearm, hdfa, hr, hge]
              simp [h1, h2, SaveAccessoryState, Timer.start_once,
                FanActiveEffective, HrvActiveEffective, DutyCycleEnabledEffective]
          · rw [Bool.not_eq_true] at hr
            simp only [SaveAccessoryState, duty_changed_on_idle, hdfa, hr]
            simp [h1, h2, SaveAccessoryState,
              FanActiveEffective, HrvActiveEffective, DutyCycleEnabledEffective]
        · rw [Bool.not_eq_true] at hdfa
          simp only [SaveAccessoryState, duty_changed_off, hdfa]
          simp [h1, h2, SaveAccessoryState,
            FanActiveEffective, HrvActiveEffective, DutyCycleEnabledEffective]
      · rw [Bool.not_eq_true] at h
        simp only [duty_write_noop s value now wallMin wallSec h]
        simp [h1, h2]
  | hrvActiveWrite value now =>
      simp only [step]
      cases value with
      | true =>
          by_cases h : HrvActiveEffective s.st = true
          · simp only [hrv_write_on_noop s now h]
            simp [h1, h2]
          · rw [Bool.not_eq_true] at h
            simp only [hrv_write_on_effective_off s now h]
            exact update_after s _ rfl rfl rfl rfl h1 h2
      | false =>
          by_cases h : HrvActiveEffective s.st = true
          · by_cases hrem : HrvActiveEffective { s.st with hrvActive := false } = true
            · simp only [hrv_write_off_still_on s now h hrem]
              exact update_after s _ rfl rfl rfl rfl h1 h2
            · rw [Bool.not_eq_true] at hrem
              simp only [hrv_write_off_plain s now h hrem]
              exact update_after s _ rfl rfl rfl rfl h1 h2
          · rw [Bool.not_eq_true] at h
            simp only [hrv_write_off_noop s now h]
            simp [h1, h2]
  | hrvTargetWrite value =>
      simp only [step]
      by_cases h : (s.st.hrvTargetState != value) = true
      · simp only [hrv_target_write_changed s value h]
        exact update_after s _ rfl rfl rfl rfl h1 h2
      · rw [Bool.not_eq_true] at h
        simp only [hrv_target_write_noop s value h]
        simp [h1, h2]
  | autoOffExpiry =>
      simp only [step]
      exact update_after s _ rfl rfl rfl rfl h1 h2
  | dutyExpiry now wallMin wallSec =>
      simp only [step]
      by_cases hdfa : s.dutyFanActive = true
      · simp only [DutyCycleTimer.expire, fire_on_phase, hdfa]
        exact update_after s _ rfl rfl rfl rfl h1 h2
      · rw [Bool.not_eq_true] at hdfa
        by_cases hpos : 0 < s.st.fanDutyCycle
        · simp only [DutyCycleTimer.expire, fire_off_phase_pos, hdfa, hpos]
          exact update_after s _ rfl rfl rfl rfl h1 h2
        · have hz : s.st.fanDutyCycle = 0 := by omega
          simp only [DutyCycleTimer.expire, fire_off_phase_zero, hdfa, hz]
          exact update_after s _ rfl rfl rfl rfl h1 h2

/-- At every reachable state the notification caches hold the currently
driven effective values (they start `false`, matching the cleared demand
bits after load, and every step re-establishes the invariant). -/
theorem run_ok (r : KvsLoadResult) (evs : List Ev) :
    (run r evs).fanCache = FanActiveEffective (run r evs).st
  ∧ (run r evs).hrvCache = HrvActiveEffective (run r evs).st := by
  have key : ∀ (l : List Ev) (s : Sys),
      (s.fanCache = FanActiveEffective s.st ∧ s.hrvCache = HrvActiveEffective s.st) →
      ((l.foldl step s).fanCache = FanActiveEffective (l.foldl step s).st
        ∧ (l.foldl step s).hrvCache = HrvActiveEffective (l.foldl step s).st) := by
    intro l
    induction l with
    | nil => intro s h; exact h
    | cons e t ih =>
        intro s h
        exact ih (step s e) (step_ok s e h.1 h.2).1
  exact key evs (initSys r) ⟨rfl, rfl⟩

/-- C6: across every serialized sequence of protocol writes and timer
expirations from start-up, one further event raises the fan (resp. HRV)
change notification exactly once when that channel's effective value
differs after the event from before it, and not at all when the event
leaves the effective value unchanged — in particular a manual-on write
while the fan is already effectively on via the duty cycle raises no fan
notification. -/
theorem c6_notify_exactly_on_transition (r : KvsLoadResult) (evs : List Ev) (e : Ev) :
    (step (run r evs) e).fanNotifies
      = (run r evs).fanNotifies
        + (if FanActiveEffective (step (run r evs) e).st
              = FanActiveEffective (run r evs).st then 0 else 1)
  ∧ (step (run r evs) e).hrvNotifies
      = (run r evs).hrvNotifies
        + (if HrvActiveEffective (step (run r evs) e).st
              = HrvActiveEffective (run r evs).st then 0 else 1) :=
  (step_ok (run r evs) e (run_ok r evs).1 (run_ok r evs).2).2
